import Mathlib

/-!
Verification of `nototools/glyph_image/glyph_image.c` (glyph coverage dump
tool).  The C program is shallowly embedded below: the glyph-range
resolution (render, lines 57-67), the 26.6 advance encoding (lines
102-109), the coverage-row encoding (lines 114-129), and the overall
control flow of `render` / `main` with the external FreeType calls
abstracted as an environment of error codes and glyph slots.
-/

set_option maxRecDepth 4096

/-! ## Range resolution (render, lines 57-67)

```c
if (first_glyph_index < 0) {
  first_glyph_index = 0;
} else if (first_glyph_index >= face->num_glyphs) {
  first_glyph_index = face->num_glyphs - 1;
}
if (last_glyph_index == -1 || last_glyph_index >= face->num_glyphs) {
  last_glyph_index = face->num_glyphs - 1;
} else if (last_glyph_index < first_glyph_index) {
  last_glyph_index = first_glyph_index;
}
```
-/

/-- Clamping of `first_glyph_index` (lines 57-61). -/
def clampFirst (f n : Int) : Int :=
  if f < 0 then 0 else if f ≥ n then n - 1 else f

/-- The full range resolution (lines 57-67): the clamped first index, then
the last index resolved against it. -/
def resolveRange (f l n : Int) : Int × Int :=
  let f' := clampFirst f n
  let l' := if l = -1 ∨ l ≥ n then n - 1 else if l < f' then f' else l
  (f', l')

/-- The range-resolution step wrapped in `Except`, mirroring the fact that
in `render` this straight-line code (lines 57-67) has no error return at
all: there is no branch producing `Except.error`. -/
def resolveRangeE (f l n : Int) : Except Int (Int × Int) :=
  Except.ok (resolveRange f l n)

/-! ## Advance encoding (render, lines 102-109)

```c
int adv = (int)slot->advance.x;
int adv_int = adv >> 6;
int adv_frac = adv % 0x3f;
if (adv_frac) {
  sprintf(buf, "%d,%d", adv_int, adv_frac);
} else {
  sprintf(buf, "%d", adv_int);
}
```
`>>` on a negative int is the arithmetic shift (gcc), i.e. `Int.shiftRight`;
C `%` truncates toward zero, i.e. `Int.tmod`. -/

/-- Advance encoding of a 26.6 fixed-point advance value. -/
def advEncode (adv : Int) : String :=
  let adv_int := adv >>> (6 : Nat)
  let adv_frac := Int.tmod adv 63
  if adv_frac ≠ 0 then toString adv_int ++ ("," ++ toString adv_frac)
  else toString adv_int

/-! ## Shared helper lemmas -/

/-- For a positive glyph count the resolved range is inside
`[0, n-1]` and ordered. -/
lemma resolveRange_valid (f l n : Int) (hn : 0 < n) :
    0 ≤ (resolveRange f l n).1 ∧
      (resolveRange f l n).1 ≤ (resolveRange f l n).2 ∧
      (resolveRange f l n).2 ≤ n - 1 := by
  unfold resolveRange clampFirst
  dsimp only
  split_ifs <;> simp_all <;> omega

lemma clampFirst_nonneg (f n : Int) (hn : 0 < n) : 0 ≤ clampFirst f n := by
  unfold clampFirst
  split_ifs <;> omega

/-! ## Claims about the range resolver -/

/-- C3: for every glyphCount > 0 and all integer requested bounds the
resolved range is contained in `[0, glyphCount-1]` with `first ≤ last`;
`resolve 0 (-1) 10 = (0, 9)` (sentinel expansion) and
`resolve 5 2 10 = (5, 5)` (inverted request degrades to a single glyph). -/
theorem range_resolver_clamps_and_orders :
    (∀ f l n : Int, 0 < n →
        0 ≤ (resolveRange f l n).1 ∧
          (resolveRange f l n).1 ≤ (resolveRange f l n).2 ∧
          (resolveRange f l n).2 ≤ n - 1) ∧
      resolveRange 0 (-1) 10 = (0, 9) ∧ resolveRange 5 2 10 = (5, 5) :=
  ⟨fun f l n hn => resolveRange_valid f l n hn, by decide, by decide⟩

/-- Witness for C3 at `f = 3, l = 7, n = 10`. -/
theorem range_resolver_clamps_and_orders_witness :
    0 ≤ (resolveRange 3 7 10).1 ∧
      (resolveRange 3 7 10).1 ≤ (resolveRange 3 7 10).2 ∧
      (resolveRange 3 7 10).2 ≤ 10 - 1 :=
  range_resolver_clamps_and_orders.1 3 7 10 (by decide)

/-- C5 counterexample: at `glyphCount = 0` (≤ 0) the resolver does not
fail: it returns `Except.ok (-1, -1)`, a range outside `[0, -1]`, instead
of propagating an error. -/
theorem resolver_succeeds_on_zero_glyphs :
    resolveRangeE 0 (-1) 0 = Except.ok (-1, -1) ∧
      ¬ 0 ≤ (resolveRange 0 (-1) 0).1 := by
  constructor
  · rfl
  · decide

/-- C5 amended: the range resolver never fails for any glyphCount — the
code performs no glyphCount validation — and for glyphCount > 0 it
succeeds with a valid in-bounds range and performs no other validation. -/
theorem resolver_total_and_unvalidated (f l n : Int) :
    (∃ r, resolveRangeE f l n = Except.ok r) ∧
      (0 < n →
        resolveRangeE f l n = Except.ok (resolveRange f l n) ∧
          0 ≤ (resolveRange f l n).1 ∧
            (resolveRange f l n).1 ≤ (resolveRange f l n).2 ∧
            (resolveRange f l n).2 ≤ n - 1) :=
  ⟨⟨resolveRange f l n, rfl⟩, fun hn => ⟨rfl, resolveRange_valid f l n hn⟩⟩

/-- Witness for the amended C5 at `f = 0, l = -1, n = 10`. -/
theorem resolver_total_and_unvalidated_witness :
    resolveRangeE 0 (-1) 10 = Except.ok (resolveRange 0 (-1) 10) :=
  ((resolver_total_and_unvalidated 0 (-1) 10).2 (by decide)).1

/-- C9: for glyphCount > 0, any requested last index strictly below the -1
sentinel falls into the inverted-range branch: the result is the
single-glyph range at the clamped first index, not a clamp to
glyphCount - 1. -/
theorem negative_last_degrades_to_single_glyph (f l n : Int) (hn : 0 < n)
    (hl : l < -1) :
    resolveRange f l n = (clampFirst f n, clampFirst f n) := by
  have hf := clampFirst_nonneg f n hn
  unfold resolveRange
  dsimp only
  have h1 : ¬ (l = -1 ∨ l ≥ n) := by omega
  rw [if_neg h1, if_pos (by omega)]

/-- Witness for C9 at `f = 0, l = -5, n = 10`. -/
theorem negative_last_degrades_to_single_glyph_witness :
    resolveRange 0 (-5) 10 = (clampFirst 0 10, clampFirst 0 10) :=
  negative_last_degrades_to_single_glyph 0 (-5) 10 (by decide) (by decide)

/-! ## Claims about the advance encoding -/

/-- C4: the advance encoding computes `whole = adv >> 6`, which equals
floor division by 64, and `frac = adv % 63` (modulus 63, not 64), and
renders `"<whole>,<frac>"` when `frac ≠ 0` and `"<whole>"` otherwise;
being a function of `adv` alone it is deterministic.  The concrete
evaluations exhibit the modulus-63 base: with modulus 64 the advance 64
would render as `"1"`, not `"1,1"`. -/
theorem advance_encoding_shape (adv : Int) :
    advEncode adv =
        (if Int.tmod adv 63 = 0 then toString (Int.fdiv adv 64)
         else toString (Int.fdiv adv 64) ++ ("," ++ toString (Int.tmod adv 63))) ∧
      advEncode 100 = "1,37" ∧ advEncode 64 = "1,1" ∧ advEncode 63 = "0" := by
  refine ⟨?_, by decide, by decide, by decide⟩
  have hshift : adv >>> (6 : Nat) = Int.fdiv adv 64 := by
    rw [Int.shiftRight_eq_div_pow, Int.fdiv_eq_ediv _ (by decide)]
    norm_num
  unfold advEncode
  rw [hshift]
  by_cases h : Int.tmod adv 63 = 0 <;> simp [h]

/-- Witness for C4 at `adv = 100`. -/
theorem advance_encoding_shape_witness : advEncode 100 = "1,37" :=
  (advance_encoding_shape 100).2.1

/-- C10: the advance encoding is not injective: 0 and 63 are distinct
advance values that both render as `"0"` (since `63 >> 6 = 0` and
`63 % 63 = 0`), so the textual advance field cannot be decoded back to
the original 26.6 value in general. -/
theorem advance_encoding_not_injective :
    advEncode 0 = "0" ∧ advEncode 63 = "0" ∧
      ¬ Function.Injective advEncode := by
  refine ⟨by decide, by decide, fun hinj => ?_⟩
  have h : (0 : Int) = 63 := hinj (show advEncode 0 = advEncode 63 by decide)
  exact absurd h (by decide)

/-! ## Coverage-row encoding (render, lines 113-129)

```c
for (unsigned int rc = 0; rc < bm->rows; ++rc, p += bm->pitch) {
  printf(":");
  int max_cc = bm->width - 1;
  while (max_cc >= 0 && *(p + max_cc) == 0) {
    --max_cc;
  }
  for (int cc = 0; cc < max_cc; ++cc) {
    int v = *(p + cc);
    if (v) {
      printf("%02x", v);
    } else {
      printf("  ");
    }
  }
  printf("\n");
}
```
A buffer row is a `List Nat` of its `bm->width` bytes. -/

/-- One lowercase hex digit, as printed by `%x`. -/
def hexDigit (n : Nat) : Char :=
  if n < 10 then Char.ofNat (48 + n) else Char.ofNat (87 + n)

/-- Two hex digits for one byte, as printed by `%02x` for values 1-255. -/
def hexByte (v : Nat) : String :=
  String.mk [hexDigit (v / 16), hexDigit (v % 16)]

/-- One emitted character pair: `%02x` for a non-zero byte, two spaces for
a zero byte (lines 121-126). -/
def encodePair (v : Nat) : String :=
  if v ≠ 0 then hexByte v else "  "

/-- The backward scan of lines 116-119: starting with candidate index
`n - 1`, decrement while the byte there is zero; `-1` when all are zero. -/
def maxCCFrom (row : List Nat) : Nat → Int
  | 0 => -1
  | n + 1 => if row.getD n 0 = 0 then maxCCFrom row n else (n : Int)

/-- `max_cc` after the while loop: the scan started at `bm->width - 1`. -/
def maxCC (row : List Nat) : Int := maxCCFrom row row.length

/-- One encoded coverage row: the `:` delimiter followed by the pairs for
columns `0 ≤ cc < max_cc` (the emitting loop of lines 120-127). -/
def encodeRow (row : List Nat) : String :=
  ":" ++ String.join
    ((List.range (maxCC row).toNat).map (fun cc => encodePair (row.getD cc 0)))

/-- A lowercase hexadecimal digit character. -/
def isHexDigit (c : Char) : Prop :=
  ('0' ≤ c ∧ c ≤ '9') ∨ ('a' ≤ c ∧ c ≤ 'f')

instance (c : Char) : Decidable (isHexDigit c) := by
  unfold isHexDigit
  infer_instance

lemma hexDigit_isHexDigit (n : Nat) (h : n < 16) : isHexDigit (hexDigit n) := by
  interval_cases n <;> decide

lemma maxCCFrom_lt (row : List Nat) (n : Nat) : maxCCFrom row n < (n : Int) + 1 := by
  induction n with
  | zero => simp [maxCCFrom]
  | succ m ih =>
    unfold maxCCFrom
    split
    · push_cast
      omega
    · push_cast
      omega

lemma maxCCFrom_zero_beyond (row : List Nat) (n : Nat) :
    ∀ j : Nat, maxCCFrom row n < (j : Int) → j < n → row.getD j 0 = 0 := by
  induction n with
  | zero => omega
  | succ m ih =>
    intro j hj hjn
    unfold maxCCFrom at hj
    by_cases h : row.getD m 0 = 0
    · rw [if_pos h] at hj
      rcases Nat.lt_succ_iff_lt_or_eq.1 hjn with hlt | heq
      · exact ih j hj hlt
      · exact heq ▸ h
    · rw [if_neg h] at hj
      omega

lemma maxCCFrom_nonzero (row : List Nat) (n : Nat) (h : 0 ≤ maxCCFrom row n) :
    row.getD (maxCCFrom row n).toNat 0 ≠ 0 := by
  induction n with
  | zero => simp [maxCCFrom] at h
  | succ m ih =>
    unfold maxCCFrom at h ⊢
    by_cases hz : row.getD m 0 = 0
    · rw [if_pos hz] at h ⊢
      exact ih h
    · rw [if_neg hz]
      simpa using hz

lemma getD_zero_of_all_zero (row : List Nat) (hz : ∀ v ∈ row, v = 0)
    (j : Nat) : row.getD j 0 = 0 := by
  rcases Nat.lt_or_ge j row.length with hlt | hge
  · rw [List.getD_eq_getElem?_getD, List.getElem?_eq_getElem hlt]
    exact hz _ (List.getElem_mem hlt)
  · rw [List.getD_eq_getElem?_getD, List.getElem?_eq_none hge]
    rfl

lemma maxCC_neg_of_all_zero (row : List Nat) (hz : ∀ v ∈ row, v = 0) :
    maxCC row = -1 := by
  unfold maxCC
  generalize row.length = n
  induction n with
  | zero => rfl
  | succ m ih =>
    unfold maxCCFrom
    rw [if_pos (getD_zero_of_all_zero row hz m)]
    exact ih

lemma getD_lt_256 (row : List Nat) (hb : ∀ v ∈ row, v < 256) (cc : Nat)
    (hnz : row.getD cc 0 ≠ 0) : row.getD cc 0 < 256 := by
  rcases Nat.lt_or_ge cc row.length with hlt | hge
  · rw [List.getD_eq_getElem?_getD, List.getElem?_eq_getElem hlt] at hnz ⊢
    exact hb _ (List.getElem_mem hlt)
  · rw [List.getD_eq_getElem?_getD, List.getElem?_eq_none hge] at hnz
    simp at hnz

/-- C1: for each coverage row, `max_cc` found by the backward scan is the
last non-zero column (all columns strictly beyond it hold zero, and when
it is non-negative its own byte is non-zero); the encoder emits the `:`
delimiter followed by one pair per column `0 ≤ cc < max_cc` — two spaces
for a zero byte, two lowercase hex digits for a non-zero byte — and an
all-zero row emits just `":"`. -/
theorem coverage_row_encoding (row : List Nat) (hb : ∀ v ∈ row, v < 256) :
    (∀ j : Nat, maxCC row < (j : Int) → row.getD j 0 = 0) ∧
      (0 ≤ maxCC row → row.getD (maxCC row).toNat 0 ≠ 0) ∧
      encodeRow row = ":" ++ String.join
        ((List.range (maxCC row).toNat).map (fun cc => encodePair (row.getD cc 0))) ∧
      (∀ cc : Nat, row.getD cc 0 = 0 → encodePair (row.getD cc 0) = "  ") ∧
      (∀ cc : Nat, row.getD cc 0 ≠ 0 →
        encodePair (row.getD cc 0) = hexByte (row.getD cc 0) ∧
          (hexByte (row.getD cc 0)).length = 2 ∧
          ∀ c ∈ (hexByte (row.getD cc 0)).data, isHexDigit c) ∧
      ((∀ v ∈ row, v = 0) → encodeRow row = ":") := by
  refine ⟨?_, ?_, rfl, ?_, ?_, ?_⟩
  · intro j hj
    rcases Nat.lt_or_ge j row.length with hlt | hge
    · exact maxCCFrom_zero_beyond row row.length j hj hlt
    · rw [List.getD_eq_getElem?_getD, List.getElem?_eq_none hge]
      rfl
  · exact maxCCFrom_nonzero row row.length
  · intro cc h
    rw [h]
    rfl
  · intro cc h
    refine ⟨by unfold encodePair; rw [if_pos h], rfl, ?_⟩
    intro c hc
    have hlt := getD_lt_256 row hb cc h
    have : c = hexDigit (row.getD cc 0 / 16) ∨ c = hexDigit (row.getD cc 0 % 16) := by
      simpa [hexByte] using hc
    rcases this with h1 | h1 <;> rw [h1]
    · exact hexDigit_isHexDigit _ (Nat.div_lt_of_lt_mul (by omega))
    · exact hexDigit_isHexDigit _ (Nat.mod_lt _ (by omega))
  · intro hz
    unfold encodeRow
    rw [maxCC_neg_of_all_zero row hz]
    rfl

/-- Witness for C1 on the row `[0, 10, 0]`. -/
theorem coverage_row_encoding_witness : List.getD [0, 10, 0] 2 0 = 0 :=
  (coverage_row_encoding [0, 10, 0] (by decide)).1 2 (by decide)

/-- C2 evidence: the emitting loop stops one column short of `max_cc`, so
the row `[5]` (whose last non-zero column is column 0) encodes to just
`":"`, exactly like the all-zero row `[0]`.  Two rows with different
non-zero-prefixes therefore have identical encodings, so no decoding of
the emitted text can reconstruct the non-zero-prefix: the round trip
claimed by the spec fails on the code. -/
theorem row_encoding_drops_last_nonzero_byte :
    encodeRow [5] = ":" ∧ encodeRow [0] = ":" ∧ ([5] : List Nat) ≠ [0] := by
  refine ⟨by decide, by decide, by decide⟩

/-! ## Control flow of `render` (lines 27-134) and `main` (lines 137-163)

The FreeType collaborator is abstracted as an environment holding the
error codes returned by `FT_Init_FreeType`, `FT_New_Face`,
`FT_Set_Pixel_Sizes`, `FT_Load_Glyph` and `FT_Render_Glyph`, the face
data read from `face`, and the glyph slot produced by a successful
load + render.  `render` returns the sequence of FreeType calls it made,
the stdout lines it printed, and its return code (stderr diagnostics are
not part of the dump). -/

/-- The glyph slot after a successful load + render: advance (26.6),
`bitmap_left`, `bitmap_top`, `bm->width`, and the buffer rows. -/
structure GlyphSlot where
  advance : Int
  bitmapLeft : Int
  bitmapTop : Int
  width : Nat
  bitmap : List (List Nat)

/-- The abstracted FreeType collaborator and face data. -/
structure FTEnv where
  initError : Int
  faceError : Int
  setSizeError : Int
  numGlyphs : Int
  familyName : String
  styleName : String
  upem : Int
  ascender : Int
  descender : Int
  timestamp : String
  loadError : Int → Int
  renderError : Int → Int
  slot : Int → GlyphSlot

/-- One FreeType call made by `render`, in order. -/
inductive FTCall where
  | init : FTCall
  | newFace : FTCall
  | setPixelSizes : FTCall
  | loadGlyph : Int → FTCall
  | renderGlyph : Int → FTCall
deriving DecidableEq

/-- The per-glyph header line (lines 110-112):
`"> glyph: %d;%s;%d %d %d %d"`. -/
def glyphHeaderLine (g : Int) (s : GlyphSlot) : String :=
  "> glyph: " ++ (toString g ++ (";" ++ (advEncode s.advance ++ (";" ++
    (toString s.bitmapLeft ++ (" " ++ (toString (-s.bitmapTop) ++ (" " ++
      (toString s.width ++ (" " ++ toString s.bitmap.length))))))))))

/-- One glyph record: the header line then one encoded row per buffer
row (lines 110-129). -/
def glyphRecordLines (g : Int) (s : GlyphSlot) : List String :=
  glyphHeaderLine g s :: s.bitmap.map encodeRow

/-- The document header block (lines 69-83). -/
def headerLines (env : FTEnv) (faceName : String) (size f l : Int) :
    List String :=
  ["# generated on " ++ env.timestamp,
   "> file: " ++ faceName,
   "> name: " ++ (env.familyName ++ ("-" ++ env.styleName)),
   "> upem: " ++ toString env.upem,
   "> ascent: " ++ toString env.ascender,
   "> descent: " ++ toString (-env.descender),
   "> size: " ++ toString size,
   "> font_glyphs: " ++ toString env.numGlyphs,
   "# first: " ++ toString f,
   "# last: " ++ toString l,
   "> num_glyphs: " ++ toString (l - f + 1)]

/-- The glyph indices visited by the loop of lines 87-88:
`first, first+1, ..., last`. -/
def glyphIndices (f l : Int) : List Int :=
  (List.range (l - f + 1).toNat).map (fun i => f + (i : Int))

/-- The glyph loop body (lines 87-130): load and render each glyph,
returning early with the FreeType error code on the first failure
(lines 90-99), otherwise emitting one record per glyph.  A return code
of 0 means the loop ran to completion. -/
def emitGlyphs (env : FTEnv) : List Int → List FTCall × List String × Int
  | [] => ([], [], 0)
  | g :: gs =>
    if env.loadError g ≠ 0 then ([FTCall.loadGlyph g], [], env.loadError g)
    else if env.renderError g ≠ 0 then
      ([FTCall.loadGlyph g, FTCall.renderGlyph g], [], env.renderError g)
    else
      (FTCall.loadGlyph g :: (FTCall.renderGlyph g :: (emitGlyphs env gs).1),
       glyphRecordLines g (env.slot g) ++ (emitGlyphs env gs).2.1,
       (emitGlyphs env gs).2.2)

/-- The tail of `render` after a successful `FT_Set_Pixel_Sizes`
(lines 69-133), with `(f, l)` the already-resolved range: print the
header block, run the glyph loop, and print `# EOF` followed by
`return 0` only when the loop did not return early. -/
def renderLoop (env : FTEnv) (faceName : String) (size f l : Int) :
    List FTCall × List String × Int :=
  if (emitGlyphs env (glyphIndices f l)).2.2 ≠ 0 then
    ([FTCall.init, FTCall.newFace, FTCall.setPixelSizes] ++
       (emitGlyphs env (glyphIndices f l)).1,
     headerLines env faceName size f l ++ (emitGlyphs env (glyphIndices f l)).2.1,
     (emitGlyphs env (glyphIndices f l)).2.2)
  else
    ([FTCall.init, FTCall.newFace, FTCall.setPixelSizes] ++
       (emitGlyphs env (glyphIndices f l)).1,
     (headerLines env faceName size f l ++
        (emitGlyphs env (glyphIndices f l)).2.1) ++ ["# EOF"],
     0)

/-- `render` (lines 27-134): init, face load, the `size < 4` check
(note: after init and face load), set size, range resolution, then the
document body. -/
def render (env : FTEnv) (faceName : String) (size first last : Int) :
    List FTCall × List String × Int :=
  if env.initError ≠ 0 then ([FTCall.init], [], env.initError)
  else if env.faceError ≠ 0 then ([FTCall.init, FTCall.newFace], [], env.faceError)
  else if size < 4 then ([FTCall.init, FTCall.newFace], [], 100)
  else if env.setSizeError ≠ 0 then
    ([FTCall.init, FTCall.newFace, FTCall.setPixelSizes], [], env.setSizeError)
  else
    renderLoop env faceName size (resolveRange first last env.numGlyphs).1
      (resolveRange first last env.numGlyphs).2

/-- `main` for an explicitly given pixel height (lines 148-162): the
`[1, 1000]` gate runs before `render` is called, so a rejected size
makes no FreeType call and prints nothing. -/
def mainRun (env : FTEnv) (faceName : String) (size first last : Int) :
    List FTCall × List String × Int :=
  if size < 1 ∨ 1000 < size then ([], [], -1)
  else render env faceName size first last

/-- A concrete well-behaved environment: one glyph, no FreeType
failures. -/
def env0 : FTEnv where
  initError := 0
  faceError := 0
  setSizeError := 0
  numGlyphs := 1
  familyName := "Sample"
  styleName := "Regular"
  upem := 1000
  ascender := 800
  descender := 200
  timestamp := "2026-01-01 00:00:00"
  loadError := fun _ => 0
  renderError := fun _ => 0
  slot := fun _ => { advance := 640, bitmapLeft := 1, bitmapTop := 9,
                     width := 2, bitmap := [[0, 7]] }

/-! ## No printed line collides with the end marker -/

lemma append_ne_eof_of_head (p t : String) (c : Char) (l : List Char)
    (hp : p.data = c :: l) (hc : c ≠ '#') : p ++ t ≠ "# EOF" := by
  intro he
  have hd : (p ++ t).data = "# EOF".data := congrArg String.data he
  rw [String.data_append, hp, List.cons_append] at hd
  have hd2 : c :: (l ++ t.data) = ['#', ' ', 'E', 'O', 'F'] := hd
  injection hd2 with h1 _
  exact hc h1

lemma append_ne_eof_of_third (p t : String) (c₀ c₁ c₂ : Char) (l : List Char)
    (hp : p.data = c₀ :: c₁ :: c₂ :: l) (hc : c₂ ≠ 'E') : p ++ t ≠ "# EOF" := by
  intro he
  have hd : (p ++ t).data = "# EOF".data := congrArg String.data he
  rw [String.data_append, hp, List.cons_append, List.cons_append,
    List.cons_append] at hd
  have hd2 : c₀ :: c₁ :: c₂ :: (l ++ t.data) = ['#', ' ', 'E', 'O', 'F'] := hd
  injection hd2 with h1 hd3
  injection hd3 with h2 hd4
  injection hd4 with h3 _
  exact hc h3

lemma headerLines_ne_eof (env : FTEnv) (fn : String) (size f l : Int) :
    ∀ x ∈ headerLines env fn size f l, x ≠ "# EOF" := by
  intro x hx
  simp only [headerLines, List.mem_cons, List.not_mem_nil, or_false] at hx
  rcases hx with h | h | h | h | h | h | h | h | h | h | h <;> subst h
  · exact append_ne_eof_of_third _ _ _ _ _ _ rfl (by decide)
  · exact append_ne_eof_of_head _ _ _ _ rfl (by decide)
  · exact append_ne_eof_of_head _ _ _ _ rfl (by decide)
  · exact append_ne_eof_of_head _ _ _ _ rfl (by decide)
  · exact append_ne_eof_of_head _ _ _ _ rfl (by decide)
  · exact append_ne_eof_of_head _ _ _ _ rfl (by decide)
  · exact append_ne_eof_of_head _ _ _ _ rfl (by decide)
  · exact append_ne_eof_of_head _ _ _ _ rfl (by decide)
  · exact append_ne_eof_of_third _ _ _ _ _ _ rfl (by decide)
  · exact append_ne_eof_of_third _ _ _ _ _ _ rfl (by decide)
  · exact append_ne_eof_of_head _ _ _ _ rfl (by decide)

lemma encodeRow_ne_eof (row : List Nat) : encodeRow row ≠ "# EOF" := by
  unfold encodeRow
  exact append_ne_eof_of_head _ _ _ _ rfl (by decide)

lemma glyphRecordLines_ne_eof (g : Int) (s : GlyphSlot) :
    ∀ x ∈ glyphRecordLines g s, x ≠ "# EOF" := by
  intro x hx
  rcases List.mem_cons.1 hx with h | h
  · subst h
    unfold glyphHeaderLine
    exact append_ne_eof_of_head _ _ _ _ rfl (by decide)
  · obtain ⟨row, _, hrow⟩ := List.mem_map.1 h
    rw [← hrow]
    exact encodeRow_ne_eof row

lemma emitGlyphs_ne_eof (env : FTEnv) (gs : List Int) :
    ∀ x ∈ (emitGlyphs env gs).2.1, x ≠ "# EOF" := by
  induction gs with
  | nil => simp [emitGlyphs]
  | cons g gs ih =>
    intro x hx
    unfold emitGlyphs at hx
    by_cases h1 : env.loadError g ≠ 0
    · rw [if_pos h1] at hx
      simp at hx
    · rw [if_neg h1] at hx
      by_cases h2 : env.renderError g ≠ 0
      · rw [if_pos h2] at hx
        simp at hx
      · rw [if_neg h2] at hx
        dsimp only at hx
        rcases List.mem_append.1 hx with h | h
        · exact glyphRecordLines_ne_eof _ _ x h
        · exact ih x h

lemma renderLoop_eof (env : FTEnv) (fn : String) (size f l : Int) :
    ((renderLoop env fn size f l).2.2 = 0 →
        ((renderLoop env fn size f l).2.1).getLast? = some "# EOF") ∧
      ((renderLoop env fn size f l).2.2 ≠ 0 →
        "# EOF" ∉ (renderLoop env fn size f l).2.1) := by
  unfold renderLoop
  by_cases h : (emitGlyphs env (glyphIndices f l)).2.2 ≠ 0
  · rw [if_pos h]
    refine ⟨fun h0 => absurd h0 h, fun _ hmem => ?_⟩
    rcases List.mem_append.1 hmem with hm | hm
    · exact headerLines_ne_eof env fn size f l _ hm rfl
    · exact emitGlyphs_ne_eof env _ _ hm rfl
  · rw [if_neg h]
    exact ⟨fun _ => List.getLast?_concat _, fun h0 => absurd rfl h0⟩

/-! ## Claims about the document control flow -/

/-- C6: the dump ends with the `# EOF` line exactly on a successful run:
if `render` returns 0 its last stdout line is `# EOF`, and on every
error return (init, face load, pixel size, set size, per-glyph load or
render failure) `# EOF` appears nowhere in the (possibly partial)
output. -/
theorem eof_marker_iff_success (env : FTEnv) (fn : String)
    (size first last : Int) :
    ((render env fn size first last).2.2 = 0 →
        ((render env fn size first last).2.1).getLast? = some "# EOF") ∧
      ((render env fn size first last).2.2 ≠ 0 →
        "# EOF" ∉ (render env fn size first last).2.1) := by
  unfold render
  by_cases h1 : env.initError ≠ 0
  · rw [if_pos h1]
    exact ⟨fun h => absurd h h1, fun _ => by simp⟩
  · rw [if_neg h1]
    by_cases h2 : env.faceError ≠ 0
    · rw [if_pos h2]
      exact ⟨fun h => absurd h h2, fun _ => by simp⟩
    · rw [if_neg h2]
      by_cases h3 : size < 4
      · rw [if_pos h3]
        exact ⟨fun h => absurd h (by decide), fun _ => by simp⟩
      · rw [if_neg h3]
        by_cases h4 : env.setSizeError ≠ 0
        · rw [if_pos h4]
          exact ⟨fun h => absurd h h4, fun _ => by simp⟩
        · rw [if_neg h4]
          exact renderLoop_eof env fn size _ _

/-- Witness for C6: on the clean one-glyph environment the run succeeds
and the last line is `# EOF`. -/
theorem eof_marker_iff_success_witness :
    ((render env0 "font.ttf" 48 0 (-1)).2.1).getLast? = some "# EOF" :=
  (eof_marker_iff_success env0 "font.ttf" 48 0 (-1)).1 (by decide)

/-- C8: whenever the run reaches the header block (init, face load, the
size check and set size all pass), the emitted `num_glyphs` field is
exactly `last - first + 1` for the resolved range, on both the
successful and the glyph-failure paths. -/
theorem num_glyphs_field (env : FTEnv) (fn : String) (size first last : Int)
    (h1 : env.initError = 0) (h2 : env.faceError = 0) (h3 : 4 ≤ size)
    (h4 : env.setSizeError = 0) :
    ("> num_glyphs: " ++
        toString ((resolveRange first last env.numGlyphs).2 -
          (resolveRange first last env.numGlyphs).1 + 1)) ∈
      (render env fn size first last).2.1 := by
  unfold render
  rw [if_neg (by simp [h1]), if_neg (by simp [h2]), if_neg (by omega),
    if_neg (by simp [h4])]
  unfold renderLoop
  by_cases h : (emitGlyphs env
      (glyphIndices (resolveRange first last env.numGlyphs).1
        (resolveRange first last env.numGlyphs).2)).2.2 ≠ 0
  · rw [if_pos h]
    exact List.mem_append_left _ (by simp [headerLines])
  · rw [if_neg h]
    exact List.mem_append_left _ (List.mem_append_left _ (by simp [headerLines]))

/-- Witness for C8 on the clean one-glyph environment. -/
theorem num_glyphs_field_witness :
    ("> num_glyphs: " ++
        toString ((resolveRange 0 (-1) env0.numGlyphs).2 -
          (resolveRange 0 (-1) env0.numGlyphs).1 + 1)) ∈
      (render env0 "font.ttf" 48 0 (-1)).2.1 :=
  num_glyphs_field env0 "font.ttf" 48 0 (-1) rfl rfl (by decide) rfl

/-- C7 counterexample: pixel size 2 is outside the valid range, yet the
run acquires the FreeType library and the face (the first two calls)
before the size check fails with code 100 — the error is not reported
before rasterization resources are acquired. -/
theorem size_error_after_resources :
    mainRun env0 "font.ttf" 2 0 (-1) = ([FTCall.init, FTCall.newFace], [], 100) ∧
      FTCall.init ∈ (mainRun env0 "font.ttf" 2 0 (-1)).1 := by
  constructor
  · rfl
  · decide

/-- C7 amended: a pixel size outside `[1, 1000]` is rejected by `main`
before `render` runs — no FreeType call, no output, exit -1; a size
inside `[1, 1000]` but below 4 is only rejected inside `render`, with
code 100, after the library and the face are acquired (when those two
calls succeed), though still before any output is produced. -/
theorem pixel_size_gates (env : FTEnv) (fn : String) (size first last : Int) :
    (size < 1 ∨ 1000 < size → mainRun env fn size first last = ([], [], -1)) ∧
      (1 ≤ size → size < 4 → env.initError = 0 → env.faceError = 0 →
        mainRun env fn size first last =
          ([FTCall.init, FTCall.newFace], [], 100)) := by
  constructor
  · intro h
    unfold mainRun
    rw [if_pos h]
  · intro hs1 hs4 h1 h2
    unfold mainRun render
    rw [if_neg (by omega), if_neg (by simp [h1]), if_neg (by simp [h2]),
      if_pos hs4]

/-- Witness for the amended C7 at size 0 (rejected by `main`). -/
theorem pixel_size_gates_witness :
    mainRun env0 "font.ttf" 0 0 (-1) = ([], [], -1) :=
  (pixel_size_gates env0 "font.ttf" 0 0 (-1)).1 (Or.inl (by decide))
